import Mathlib

/-!
Verification of the AuthFlow credential and session integrity subsystem.

This file gives a shallow embedding, in Lean, of the core of the
repository: the JWT token lifecycle (src/utils/jwt.ts), the login and
logout orchestration (src/services/authService.ts, userService.ts), the
password-reset flow (src/services/passwordService.ts), the TOTP
two-factor module (src/utils/2fa.ts, src/services of 2FA), and the
Redis-backed fixed-window rate limiter (src/middleware/rateLimit.ts),
together with the login route handler (src/app/api/v1/auth/login/route.ts).

Conventions of the embedding:
* time is a `Nat`, in milliseconds since the epoch (TOTP uses seconds);
* the relational store is an explicit `Db` record of tables (lists);
  a function that may write returns a pair `Except e α × Db`, and an
  error always comes with the *unchanged* input `Db` — this models the
  Prisma `$transaction` roll-back semantics of the source;
* external cryptographic primitives (bcrypt comparison, SHA-256 of
  backup codes, the HMAC-SHA1 dynamic truncation inside `otplib`) are
  parameters of the functions that use them, exactly as they are
  opaque collaborator calls in the source;
* a signed JWT string is modelled as a `SignedToken` record carrying
  its payload, the key it was signed with, and its expiry; `jwt.verify`
  succeeds exactly when the key matches and the token is unexpired.
-/

namespace AuthFlow

/-- Error codes from `src/types/api.ts` that occur on the verified paths. -/
inductive ErrorCode where
  | INVALID_USERNAME
  | INVALID_CREDENTIALS
  | TWO_FACTOR_REQUIRED
  | INVALID_2FA_CODE
  | INTERNAL_SERVER_ERROR
  | INVALID_TOKEN
  | TWO_FACTOR_ALREADY_ENABLED
  | INVALID_STATE
  | INVALID_RESET_TOKEN
  | INVALID_PASSWORD
  | RATE_LIMIT_EXCEEDED
  deriving DecidableEq, Repr

/-- `APIError` of `src/middleware/errorHandler.ts`: HTTP status and code
(message and optional data payload are not modelled). -/
structure ApiErr where
  statusCode : Nat
  code : ErrorCode
  deriving DecidableEq, Repr

/-! ## Validation (src/utils/validation.ts) -/

/-- `validateUsername`: 3–50 characters, only letters, digits, underscore
(the regex of validation.ts, read over the character list). -/
def validateUsername (username : String) : Bool :=
  3 ≤ username.data.length && username.data.length ≤ 50 &&
    username.data.all (fun c => c.isAlphanum || c = '_')

/-- `validatePassword`: at least 8 characters with at least one lowercase
letter, one uppercase letter and one digit. -/
def validatePassword (password : String) : Bool :=
  8 ≤ password.data.length && password.data.any Char.isLower &&
    password.data.any Char.isUpper && password.data.any Char.isDigit

/-! ## JWT constants (src/utils/jwt.ts lines 8–25) -/

/-- `JWT_ACCESS_EXPIRES = '1h'` in milliseconds. -/
def JWT_ACCESS_EXPIRES_MS : Nat := 60 * 60 * 1000

/-- `JWT_REFRESH_EXPIRES = '7d'` in milliseconds (`ms('7d')` of jwt.ts line 76). -/
def JWT_REFRESH_EXPIRES_MS : Nat := 7 * 24 * 60 * 60 * 1000

/-- `TOKEN_EXPIRY_MS` — the fixed blacklist/verification-record retention
constant, 24 hours (defined in `src/services/userService.ts` line 14 and
pinned to the same value by the service test suite). -/
def TOKEN_EXPIRY_MS : Nat := 24 * 60 * 60 * 1000

/-- The two independent signing secrets (`JWT_ACCESS_SECRET`,
`JWT_REFRESH_SECRET`). -/
inductive SigningKey where
  | access
  | refresh
  deriving DecidableEq, Repr

/-- The payload embedded in both tokens (`TokenPayload` of jwt.ts). -/
structure TokenPayload where
  user_id : Nat
  jti : String
  deriving DecidableEq, Repr

/-- A signed JWT string, modelled by its payload, the secret it was signed
with, and its absolute expiry instant. -/
structure SignedToken where
  user_id : Nat
  jti : String
  key : SigningKey
  exp : Nat
  deriving DecidableEq, Repr

/-- `jwt.sign(payload, secret, expiresIn)`. -/
def jwtSign (user_id : Nat) (jti : String) (key : SigningKey) (now ttl : Nat) :
    SignedToken :=
  ⟨user_id, jti, key, now + ttl⟩

/-- `jwt.verify(token, secret)`: succeeds exactly when the token was signed
with `key` and is unexpired at `now`. -/
def jwtVerify (now : Nat) (t : SignedToken) (key : SigningKey) : Option TokenPayload :=
  if t.key = key ∧ now < t.exp then some ⟨t.user_id, t.jti⟩ else none

/-! ## Database state -/

/-- A row of `Refresh_Tokens`. -/
structure RefreshTokenRecord where
  token : SignedToken
  user_id : Nat
  expires_at : Nat
  deriving DecidableEq, Repr

/-- A row of `Blacklisted_Tokens`. -/
structure BlacklistedToken where
  user_id : Nat
  token_identifier : String
  token_type : String
  expires_at : Nat
  deriving DecidableEq, Repr

/-- A row of `Two_Factor_Settings` (without the user_id key, which is the
association key in `Db.two_Factor_Settings`). -/
structure TwoFactorSettings where
  secret : String
  is_enabled : Bool
  enabled_at : Option Nat
  deriving DecidableEq, Repr

/-- A row of `Two_Factor_Backup_Codes`. -/
structure BackupCodeRecord where
  user_id : Nat
  code_hash : String
  is_used : Bool
  deriving DecidableEq, Repr

/-- A row of `Users` (the fields this core reads or writes). -/
structure User where
  id : Nat
  username : String
  email : String
  password_hash : String
  is_active : Bool
  email_verified : Bool
  password_changed_at : Option Nat
  updated_at : Nat
  deriving DecidableEq, Repr

/-- A row of `Password_Resets`. -/
structure PasswordReset where
  id : Nat
  user_id : Nat
  token : String
  expires_at : Nat
  is_used : Bool
  deriving DecidableEq, Repr

/-- The relational store. `refreshCreateFails` injects a persistence
failure of `refresh_Tokens.create`, as the dependency-injected client is
made to do in the jwt test suite. -/
structure Db where
  users : List User
  refresh_Tokens : List RefreshTokenRecord
  blacklisted_Tokens : List BlacklistedToken
  two_Factor_Settings : List (Nat × TwoFactorSettings)
  two_Factor_Backup_Codes : List BackupCodeRecord
  password_Resets : List PasswordReset
  refreshCreateFails : Bool
  deriving DecidableEq, Repr

/-! ## Token lifecycle (src/utils/jwt.ts) -/

/-- The token pair returned by `generateTokens`. -/
structure GeneratedTokens where
  accessToken : SignedToken
  refreshToken : SignedToken
  deriving DecidableEq, Repr

/-- `generateTokens(userId)` (jwt.ts lines 44–96): sign an access token and
a refresh token embedding `{user_id, jti}` with the two secrets and their
respective TTLs, then persist the refresh token; if the persistence write
throws, the whole call throws and no tokens are returned. The fresh
`uuidv4()` value is the `jti` argument. -/
def generateTokens (userId : Nat) (jti : String) (now : Nat) (db : Db) :
    Except String GeneratedTokens × Db :=
  let accessToken := jwtSign userId jti .access now JWT_ACCESS_EXPIRES_MS
  let refreshToken := jwtSign userId jti .refresh now JWT_REFRESH_EXPIRES_MS
  if db.refreshCreateFails then
    (.error "Failed to store refresh token", db)
  else
    (.ok ⟨accessToken, refreshToken⟩,
     { db with refresh_Tokens :=
        ⟨refreshToken, userId, now + JWT_REFRESH_EXPIRES_MS⟩ :: db.refresh_Tokens })

/-- `verifyAccessToken(token)` (jwt.ts lines 104–110): `jwt.verify` with the
access secret; any failure becomes the single error
`'Invalid or expired access token'`. No database argument exists. -/
def verifyAccessToken (now : Nat) (t : SignedToken) : Except String TokenPayload :=
  match jwtVerify now t .access with
  | some p => .ok p
  | none => .error "Invalid or expired access token"

/-- `verifyRefreshToken(token)` (jwt.ts lines 119–140): `jwt.verify` with the
refresh secret, then require a matching `Refresh_Tokens` row to exist. -/
def verifyRefreshToken (now : Nat) (t : SignedToken) (db : Db) :
    Except String TokenPayload :=
  match jwtVerify now t .refresh with
  | none => .error "Invalid or expired refresh token"
  | some p =>
      if db.refresh_Tokens.any (fun r => r.token = t) then .ok p
      else .error "Invalid or expired refresh token"

/-! ## Logout (src/services/userService.ts lines 451–513) -/

/-- Whether the blacklist of `db` holds a record matching the identifier
`jti` (either exactly or through the wildcard entry). The source never
evaluates this predicate during access-token verification; it is stated
here to express what the stored revocation records cover. -/
def isBlacklisted (db : Db) (jti : String) : Bool :=
  db.blacklisted_Tokens.any
    (fun b => b.token_identifier = jti || b.token_identifier = "*")

/-- `logout(accessToken, params)`: verify the access token (else
`401 INVALID_TOKEN`); in one transaction blacklist its jti as type
`access` with expiry `now + TOKEN_EXPIRY_MS`; if a refresh token was
supplied, best-effort verify it (failure is swallowed), blacklist its jti
as type `refresh` and delete its `Refresh_Tokens` row. -/
def logout (accessToken : SignedToken) (refresh_token : Option SignedToken)
    (now : Nat) (db : Db) : Except ApiErr Unit × Db :=
  match verifyAccessToken now accessToken with
  | .error _ => (.error ⟨401, .INVALID_TOKEN⟩, db)
  | .ok p =>
    let db1 := { db with blacklisted_Tokens := db.blacklisted_Tokens ++
        [⟨p.user_id, p.jti, "access", now + TOKEN_EXPIRY_MS⟩] }
    match refresh_token with
    | none => (.ok (), db1)
    | some rt =>
      match verifyRefreshToken now rt db with
      | .error _ => (.ok (), db1)
      | .ok rp =>
        let row : BlacklistedToken := ⟨p.user_id, rp.jti, "refresh", now + TOKEN_EXPIRY_MS⟩
        let db2 := { db1 with blacklisted_Tokens := db1.blacklisted_Tokens ++ [row] }
        (.ok (), { db2 with refresh_Tokens :=
            db2.refresh_Tokens.filter (fun r => r.token ≠ rt) })

/-! ## Login (src/services/authService.ts lines 29–117) -/

/-- The request body of the login endpoint. -/
structure LoginRequest where
  username : String
  password : String
  two_factor_code : Option String
  deriving DecidableEq, Repr

/-- The success payload of the login endpoint. -/
structure LoginData where
  access_token : SignedToken
  token_type : String
  refresh_token : SignedToken
  expires_in : Nat
  requires2FA : Bool
  deriving DecidableEq, Repr

/-- `prisma.users.findUnique({where: {username}})`. -/
def findUserByUsername (db : Db) (username : String) : Option User :=
  db.users.find? (fun u => u.username = username)

/-- The `twoFactorSettings` relation included with the user row. -/
def findTwoFactor (db : Db) (uid : Nat) : Option TwoFactorSettings :=
  (db.two_Factor_Settings.find? (fun p => p.fst = uid)).map Prod.snd

/-- `user.twoFactorSettings?.is_enabled` as a truthy test. -/
def twoFactorEnabled (db : Db) (uid : Nat) : Bool :=
  match findTwoFactor db uid with
  | some s => s.is_enabled
  | none => false

/-- The 2FA gate of `login` (authService.ts lines 61–92): when the user's
two-factor settings exist and are enabled, a code must be present in the
request (401 TWO_FACTOR_REQUIRED), the stored secret must be non-empty
(500), and the code must verify (401 INVALID_2FA_CODE); otherwise the
gate passes. -/
def twoFactorGate (totp : String → String → Bool)
    (tfs? : Option TwoFactorSettings) (code? : Option String) :
    Except ApiErr Unit :=
  match tfs? with
  | some tfs =>
    if tfs.is_enabled then
      match code? with
      | none => .error ⟨401, .TWO_FACTOR_REQUIRED⟩
      | some code =>
        if tfs.secret = "" then .error ⟨500, .INTERNAL_SERVER_ERROR⟩
        else if ¬ totp tfs.secret code then .error ⟨401, .INVALID_2FA_CODE⟩
        else .ok ()
    else .ok ()
  | none => .ok ()

/-- `login({username, password, two_factor_code})`. `cmp` is the bcrypt
`comparePassword` collaborator and `totp` is `verify2FAToken`; `jti` is
the fresh `uuidv4()` drawn inside `generateTokens`. Steps: validate the
username shape (400 INVALID_USERNAME); look up the user and compare the
password (401 INVALID_CREDENTIALS on either failure); pass the 2FA gate;
generate the token pair (persistence failure maps to
500 INTERNAL_SERVER_ERROR through the catch-all). -/
def login (cmp : String → String → Bool) (totp : String → String → Bool)
    (req : LoginRequest) (jti : String) (now : Nat) (db : Db) :
    Except ApiErr LoginData × Db :=
  if ¬ validateUsername req.username then
    (.error ⟨400, .INVALID_USERNAME⟩, db)
  else
    match findUserByUsername db req.username with
    | none => (.error ⟨401, .INVALID_CREDENTIALS⟩, db)
    | some user =>
      if ¬ cmp req.password user.password_hash then
        (.error ⟨401, .INVALID_CREDENTIALS⟩, db)
      else
        match twoFactorGate totp (findTwoFactor db user.id) req.two_factor_code with
        | .error e => (.error e, db)
        | .ok () =>
          match generateTokens user.id jti now db with
          | (.error _, _) => (.error ⟨500, .INTERNAL_SERVER_ERROR⟩, db)
          | (.ok tokens, db1) =>
            (.ok ⟨tokens.accessToken, "bearer", tokens.refreshToken, 3600, false⟩, db1)

/-- The result component of `login`, written over only the data `login`
actually reads: the looked-up user's id and password hash, the 2FA
settings lookup, and whether the refresh persistence write fails. Used
to state that `login` consults nothing else of the account row. -/
def loginFst (cmp : String → String → Bool) (totp : String → String → Bool)
    (req : LoginRequest) (jti : String) (now : Nat)
    (found : Option (Nat × String)) (ft : Nat → Option TwoFactorSettings)
    (persistFails : Bool) : Except ApiErr LoginData :=
  if ¬ validateUsername req.username then .error ⟨400, .INVALID_USERNAME⟩
  else
    match found with
    | none => .error ⟨401, .INVALID_CREDENTIALS⟩
    | some (uid, hash) =>
      if ¬ cmp req.password hash then .error ⟨401, .INVALID_CREDENTIALS⟩
      else
        match twoFactorGate totp (ft uid) req.two_factor_code with
        | .error e => .error e
        | .ok () =>
          if persistFails then .error ⟨500, .INTERNAL_SERVER_ERROR⟩
          else
            .ok ⟨jwtSign uid jti .access now JWT_ACCESS_EXPIRES_MS, "bearer",
                 jwtSign uid jti .refresh now JWT_REFRESH_EXPIRES_MS, 3600, false⟩

/-! ## Password reset (src/services/passwordService.ts lines 115–199) -/

/-- `password_Resets.findFirst({where: {token, expires_at: {gt: now}, is_used: false}})`. -/
def findResetRequest (db : Db) (token : String) (now : Nat) : Option PasswordReset :=
  db.password_Resets.find?
    (fun r => r.token = token && decide (now < r.expires_at) && !r.is_used)

/-- `users.update` inside the reset transaction: set the new hash and the
changed/updated timestamps; Prisma throws when the row is missing. -/
def usersUpdatePassword (db : Db) (uid : Nat) (hash : String) (now : Nat) :
    Except String Db :=
  if db.users.any (fun u => u.id = uid) then
    .ok { db with users := db.users.map (fun u =>
      if u.id = uid then
        { u with password_hash := hash, password_changed_at := some now,
                 updated_at := now }
      else u) }
  else .error "Record to update not found"

/-- `password_Resets.update({where: {id}, data: {is_used: true}})`. -/
def markResetUsed (db : Db) (rid : Nat) : Except String Db :=
  if db.password_Resets.any (fun r => r.id = rid) then
    .ok { db with password_Resets := db.password_Resets.map (fun r =>
      if r.id = rid then { r with is_used := true } else r) }
  else .error "Record to update not found"

/-- The two wildcard blacklist rows inserted by the reset transaction
(`blacklisted_Tokens.createMany`), each expiring at `now + TOKEN_EXPIRY_MS`. -/
def resetBlacklistRows (uid now : Nat) : List BlacklistedToken :=
  [⟨uid, "*", "access", now + TOKEN_EXPIRY_MS⟩,
   ⟨uid, "*", "refresh", now + TOKEN_EXPIRY_MS⟩]

/-- The body of the `prisma.$transaction` callback of `resetPassword`:
locate an unexpired, unused reset request by token (else
`401 INVALID_RESET_TOKEN`), hash the new password, update the user row,
mark the request used, bulk-insert the wildcard blacklist rows. A
non-`APIError` failure of a step surfaces as 500 INTERNAL_SERVER_ERROR. -/
def resetPasswordTx (hashPw : String → String) (token newPassword : String)
    (now : Nat) (db : Db) : Except ApiErr Db :=
  match findResetRequest db token now with
  | none => .error ⟨401, .INVALID_RESET_TOKEN⟩
  | some r =>
    let hashed := hashPw newPassword
    match usersUpdatePassword db r.user_id hashed now with
    | .error _ => .error ⟨500, .INTERNAL_SERVER_ERROR⟩
    | .ok db1 =>
      match markResetUsed db1 r.id with
      | .error _ => .error ⟨500, .INTERNAL_SERVER_ERROR⟩
      | .ok db2 =>
        .ok { db2 with blacklisted_Tokens :=
          db2.blacklisted_Tokens ++ resetBlacklistRows r.user_id now }

/-- `resetPassword(token, newPassword)`: validate the password shape
(400 INVALID_PASSWORD), then run the transaction; on any error the
transaction rolls back, so the caller's store is unchanged. -/
def resetPassword (hashPw : String → String) (token newPassword : String)
    (now : Nat) (db : Db) : Except ApiErr Unit × Db :=
  if ¬ validatePassword newPassword then
    (.error ⟨400, .INVALID_PASSWORD⟩, db)
  else
    match resetPasswordTx hashPw token newPassword now db with
    | .error e => (.error e, db)
    | .ok db1 => (.ok (), db1)

/-! ## Two-factor module (src/utils/2fa.ts)

`verify2FAToken` delegates to the `otplib` authenticator configured with
`window: 1, step: 30, digits: 6`, which implements the standard TOTP
check of RFC 6238: the token is compared with the 6-digit codes of the
time-step counters `T-1, T, T+1`. The HMAC-SHA1 dynamic-truncation
primitive inside the library is the abstract parameter `hotp`
(secret and counter to a natural number). -/

/-- `TOTP_OPTIONS.step` (seconds). -/
def TOTP_STEP : Nat := 30

/-- `TOTP_OPTIONS.digits`. -/
def TOTP_DIGITS : Nat := 6

/-- `TOTP_OPTIONS.window`. -/
def TOTP_WINDOW : Nat := 1

/-- The ASCII digit character of `d % 10`. -/
def digitChar (d : Nat) : Char := Char.ofNat (48 + d % 10)

/-- The 6-digit zero-padded decimal string of `n % 10^6` — the shape of
every code the authenticator generates. -/
def code6 (n : Nat) : String :=
  String.mk [digitChar (n / 100000), digitChar (n / 10000), digitChar (n / 1000),
             digitChar (n / 100), digitChar (n / 10), digitChar n]

/-- The TOTP code of `secret` at step counter `counter`. -/
def totpToken (hotp : String → Nat → Nat) (secret : String) (counter : Nat) : String :=
  code6 (hotp secret counter)

/-- `verify2FAToken(secret, token)` evaluated when the clock reads `epoch`
seconds: true exactly when the token equals the code of one of the step
counters `epoch/30 - 1`, `epoch/30`, `epoch/30 + 1` (window ±1). Any
input that matches no code — malformed ones included — yields `false`;
the `try/catch` of the source returns `false` instead of throwing. -/
def verify2FAToken (hotp : String → Nat → Nat) (secret token : String)
    (epoch : Nat) : Bool :=
  let counter := epoch / TOTP_STEP
  token = totpToken hotp secret (counter - 1) ||
  token = totpToken hotp secret counter ||
  token = totpToken hotp secret (counter + 1)

/-- `verifyBackupCode(code, hashedCode)` with the SHA-256 collaborator
`sha256hex`: recompute the hash and compare. -/
def verifyBackupCode (sha256hex : String → String) (code hashedCode : String) : Bool :=
  sha256hex code = hashedCode

/-! ## Two-factor setup state machine (the 2FA service) -/

/-- The setup data returned by `enable2FA` (the QR data-URL rendering of
the otpauth URI is an external concern and not modelled). -/
structure TwoFactorSetupData where
  secret : String
  backup_codes : List String
  deriving DecidableEq, Repr

/-- `two_Factor_Settings.upsert`: update `{secret, is_enabled: false}` when
a row for `uid` exists, else create `{user_id, secret, is_enabled: false}`. -/
def upsertTwoFactor (db : Db) (uid : Nat) (secret : String) : Db :=
  if (db.two_Factor_Settings.any (fun p => p.fst = uid)) then
    { db with two_Factor_Settings := db.two_Factor_Settings.map (fun p =>
        if p.fst = uid then (p.fst, { p.snd with secret := secret, is_enabled := false })
        else p) }
  else
    { db with two_Factor_Settings := db.two_Factor_Settings ++ [(uid, ⟨secret, false, none⟩)] }

/-- `enable2FA(userId, username)`: refuse when 2FA is already enabled
(400 TWO_FACTOR_ALREADY_ENABLED); otherwise, in one transaction, upsert
the fresh secret with `is_enabled := false`, discard the old backup-code
batch and store the new codes hashed. The freshly generated secret and
backup codes are the `secret` and `backupCodes` arguments; `sha256hex`
is `hashBackupCode`. -/
def enable2FA (sha256hex : String → String) (userId : Nat) (secret : String)
    (backupCodes : List String) (db : Db) : Except ApiErr TwoFactorSetupData × Db :=
  if twoFactorEnabled db userId then
    (.error ⟨400, .TWO_FACTOR_ALREADY_ENABLED⟩, db)
  else
    let db1 := upsertTwoFactor db userId secret
    let fresh : List BackupCodeRecord :=
      backupCodes.map (fun c => ⟨userId, sha256hex c, false⟩)
    let db2 := { db1 with two_Factor_Backup_Codes :=
        (db1.two_Factor_Backup_Codes.filter (fun c => c.user_id ≠ userId)) ++ fresh }
    (.ok ⟨secret, backupCodes⟩, db2)

/-- `verify2FA(userId, {code})`: no settings row is an invalid state
(400 INVALID_STATE); an already-active row is refused
(400 TWO_FACTOR_ALREADY_ENABLED); a wrong code is rejected
(400 INVALID_2FA_CODE) leaving the store untouched; a correct code sets
`is_enabled := true` and records `enabled_at := now`. `totp` is the
`verify2FAToken` collaborator evaluated at the current clock. -/
def verify2FA (totp : String → String → Bool) (userId : Nat) (code : String)
    (now : Nat) (db : Db) : Except ApiErr Bool × Db :=
  match findTwoFactor db userId with
  | none => (.error ⟨400, .INVALID_STATE⟩, db)
  | some s =>
    if s.is_enabled then (.error ⟨400, .TWO_FACTOR_ALREADY_ENABLED⟩, db)
    else if ¬ totp s.secret code then (.error ⟨400, .INVALID_2FA_CODE⟩, db)
    else
      (.ok true,
       { db with two_Factor_Settings := db.two_Factor_Settings.map (fun p =>
           if p.fst = userId then (p.fst, ⟨p.snd.secret, true, some now⟩) else p) })

/-! ## Rate limiter (src/middleware/rateLimit.ts) -/

/-- A live Redis entry: current counter value and absolute expiry instant
(milliseconds). The key is gone once `now` reaches `expires_at`. -/
structure RedisEntry where
  count : Nat
  expires_at : Nat
  deriving DecidableEq, Repr

/-- The shared counter store; `failing` models a Redis communication
failure (the `eval` call rejecting). -/
structure RedisStore where
  entries : List (String × RedisEntry)
  failing : Bool
  deriving DecidableEq, Repr

/-- Read a key, honouring expiry: an entry whose `expires_at` has passed is
absent. -/
def redisGet (now : Nat) (s : RedisStore) (key : String) : Option RedisEntry :=
  match s.entries.find? (fun p => p.fst = key) with
  | some p => if now < p.snd.expires_at then some p.snd else none
  | none => none

/-- The live counter value of a key (0 when absent or expired). -/
def redisCount (now : Nat) (s : RedisStore) (key : String) : Nat :=
  match redisGet now s key with
  | some e => e.count
  | none => 0

/-- Store an entry under a key, replacing any previous one. -/
def redisSet (s : RedisStore) (key : String) (e : RedisEntry) : RedisStore :=
  { s with entries := (key, e) :: s.entries.filter (fun p => p.fst ≠ key) }

/-- The atomic Lua script of `RateLimiter.check`: `INCR` the key, and when
the increment brought it from absent to 1, `EXPIRE` it to the window
length; returns the incremented value. -/
def incrScript (now : Nat) (expireSeconds : Nat) (s : RedisStore) (key : String) :
    Nat × RedisStore :=
  match redisGet now s key with
  | some e => (e.count + 1, redisSet s key ⟨e.count + 1, e.expires_at⟩)
  | none => (1, redisSet s key ⟨1, now + expireSeconds * 1000⟩)

/-- A `RateLimiter` configuration (the key-generation concern is modelled
by passing the final key to `check`). -/
structure RateLimiter where
  windowMs : Nat
  max : Nat
  deriving DecidableEq, Repr

/-- The result record of `check`. -/
structure CheckResult where
  success : Bool
  current : Nat
  remaining : Nat
  deriving DecidableEq, Repr

/-- `RateLimiter.check` (rateLimit.ts lines 243–269): on a store failure
return `{success: true, current: 0, remaining: max}` (fail open);
otherwise run the atomic increment script with
`expireSeconds = ceil(windowMs/1000)` and return
`{success: current <= max, current, remaining: max(max - current, 0)}`. -/
def RateLimiter.check (cfg : RateLimiter) (key : String) (now : Nat)
    (s : RedisStore) : CheckResult × RedisStore :=
  if s.failing then
    ({ success := true, current := 0, remaining := cfg.max }, s)
  else
    let expireSeconds := (cfg.windowMs + 999) / 1000
    let r := incrScript now expireSeconds s key
    ({ success := r.fst ≤ cfg.max, current := r.fst, remaining := cfg.max - r.fst },
     r.snd)

/-- `loginLimiter`: 15-minute window, ceiling 5. -/
def loginLimiter : RateLimiter := ⟨15 * 60 * 1000, 5⟩

/-- Run `check` once per instant of `times`, threading the store. -/
def checkTimes (cfg : RateLimiter) (key : String) :
    List Nat → RedisStore → List CheckResult × RedisStore
  | [], s => ([], s)
  | t :: ts, s =>
    let r := RateLimiter.check cfg key t s
    let rest := checkTimes cfg key ts r.snd
    (r.fst :: rest.fst, rest.snd)

/-! ## Login route (src/app/api/v1/auth/login/route.ts lines 31–79) -/

/-- The outcome of the route handler: 429 on limit, 200 with the login
data, or the error response produced by `handleError`. -/
inductive RouteOutcome where
  | rateLimited
  | success (d : LoginData)
  | handled (e : ApiErr)
  deriving DecidableEq, Repr

/-- The Redis key the login limiter ends up using: the route passes
`customKey = ip + "-" + username` and the limiter's key generator wraps
it as `rl:login:{ip}:{customKey}`. -/
def loginKey (ip username : String) : String :=
  "rl:login:" ++ ip ++ ":" ++ (ip ++ "-" ++ username)

/-- `POST` of the login route, after the body parsed: consult the limiter
(429 when over the ceiling); run `login`; when it fails with
`INVALID_CREDENTIALS`, consult the limiter a second time to record the
failed attempt; delegate errors to `handleError`. -/
def loginRoutePOST (cmp totp : String → String → Bool) (ip : String)
    (req : LoginRequest) (jti : String) (now : Nat) (db : Db) (s : RedisStore) :
    RouteOutcome × Db × RedisStore :=
  let key := loginKey ip req.username
  let c1 := RateLimiter.check loginLimiter key now s
  if ¬ c1.fst.success then (.rateLimited, db, c1.snd)
  else
    match login cmp totp req jti now db with
    | (.ok d, db1) => (.success d, db1, c1.snd)
    | (.error e, db1) =>
      if e.code = .INVALID_CREDENTIALS then
        let c2 := RateLimiter.check loginLimiter key now c1.snd
        (.handled e, db1, c2.snd)
      else (.handled e, db1, c1.snd)

/-! ## Concrete objects used by witnesses -/

/-- An empty relational store. -/
def emptyDb : Db := ⟨[], [], [], [], [], [], false⟩

/-- A demo user row. -/
def demoUser : User := ⟨1, "alice", "alice@example.com", "Secret12", true, true, none, 0⟩

/-- A store holding only `demoUser`. -/
def demoDb : Db := ⟨[demoUser], [], [], [], [], [], false⟩

/-- A concrete instantiation of the bcrypt `comparePassword` collaborator:
the stored hash is the password itself. -/
def cmpEq : String → String → Bool := fun p h => p == h

/-- A concrete instantiation of the TOTP collaborator that accepts nothing. -/
def totpNever : String → String → Bool := fun _ _ => false

/-- A correct-credential login request for `demoUser`. -/
def demoReq : LoginRequest := ⟨"alice", "Secret12", none⟩

/-- A wrong-credential login request for `demoUser`. -/
def demoBadReq : LoginRequest := ⟨"alice", "Wrong1ng", none⟩

/-- A concrete instantiation of the HMAC truncation primitive: the counter
itself. -/
def hotpId : String → Nat → Nat := fun _ c => c

/-- A pending, unused password-reset row for `demoUser`. -/
def resetRow : PasswordReset := ⟨7, 1, "tok", 100, false⟩

/-- A store holding `demoUser` and `resetRow`. -/
def resetDb : Db := ⟨[demoUser], [], [], [], [], [resetRow], false⟩

/-- Overwrite the `is_active` and `email_verified` flags of every user row,
leaving everything else in place — used to state that login never reads
those flags. -/
def dbSetFlags (a b : Bool) (db : Db) : Db :=
  { db with users := db.users.map (fun u =>
      { u with is_active := a, email_verified := b }) }

/-! ## Helper lemmas -/

theorem code6_length (n : Nat) : (code6 n).length = 6 := rfl

theorem find?_map_update {α : Type} (l : List (Nat × α)) (uid : Nat) (f : α → α)
    (x : Nat × α) (h : l.find? (fun p => p.fst = uid) = some x) :
    (l.map (fun p => if p.fst = uid then (p.fst, f p.snd) else p)).find?
      (fun p => p.fst = uid) = some (uid, f x.snd) := by
  induction l with
  | nil => simp at h
  | cons p l ih =>
    by_cases hp : p.fst = uid
    · simp [List.find?, hp] at h
      subst h
      simp [List.find?, hp]
    · simp [List.find?, hp] at h
      have hg : (if p.fst = uid then (p.fst, f p.snd) else p) = p := if_neg hp
      have hd : decide (p.fst = uid) = false := by simp [hp]
      simp only [List.map, hg, List.find?, hd]
      exact ih h

theorem usersUpdatePassword_parts (db : Db) (uid : Nat) (hash : String)
    (now : Nat) (db' : Db) (h : usersUpdatePassword db uid hash now = .ok db') :
    db'.blacklisted_Tokens = db.blacklisted_Tokens ∧
    db'.password_Resets = db.password_Resets := by
  unfold usersUpdatePassword at h
  split at h
  · rw [Except.ok.injEq] at h
    rw [← h]
    exact ⟨rfl, rfl⟩
  · exact absurd h (by simp)

theorem markResetUsed_blacklist (db : Db) (rid : Nat) (db' : Db)
    (h : markResetUsed db rid = .ok db') :
    db'.blacklisted_Tokens = db.blacklisted_Tokens := by
  unfold markResetUsed at h
  split at h
  · rw [Except.ok.injEq] at h
    rw [← h]
  · exact absurd h (by simp)

theorem check_preserves_failing (cfg : RateLimiter) (key : String) (now : Nat)
    (s : RedisStore) :
    (RateLimiter.check cfg key now s).snd.failing = s.failing := by
  unfold RateLimiter.check incrScript redisSet
  cases hf : s.failing <;> simp [hf] <;> cases redisGet now s key <;> simp

theorem redisGet_redisSet_self (now : Nat) (s : RedisStore) (key : String)
    (e : RedisEntry) :
    redisGet now (redisSet s key e) key =
      if now < e.expires_at then some e else none := by
  simp [redisGet, redisSet, List.find?]

theorem redisGet_some_lt (now : Nat) (s : RedisStore) (key : String)
    (e : RedisEntry) (h : redisGet now s key = some e) : now < e.expires_at := by
  unfold redisGet at h
  rcases hf : s.entries.find? (fun p => p.fst = key) with _ | p <;> rw [hf] at h
  · exact absurd h (by simp)
  · by_cases hlt : now < p.snd.expires_at
    · simp only [hlt, if_true, Option.some.injEq] at h
      rw [← h]; exact hlt
    · simp [hlt] at h

theorem check_current_eq (cfg : RateLimiter) (key : String) (now : Nat)
    (s : RedisStore) (hok : s.failing = false) :
    (RateLimiter.check cfg key now s).fst.current = redisCount now s key + 1 := by
  unfold RateLimiter.check incrScript redisCount
  rw [hok]
  cases h : redisGet now s key <;> simp [h]

theorem check_count_after (cfg : RateLimiter) (key : String) (now : Nat)
    (s : RedisStore) (hok : s.failing = false) (hw : 0 < cfg.windowMs) :
    redisCount now (RateLimiter.check cfg key now s).snd key =
      redisCount now s key + 1 := by
  unfold RateLimiter.check incrScript
  rw [hok]
  simp only [Bool.false_eq_true, if_false]
  cases h : redisGet now s key with
  | some e =>
    have hlt := redisGet_some_lt now s key e h
    simp [redisCount, h, redisGet_redisSet_self, hlt]
  | none =>
    have hsec : 1 ≤ (cfg.windowMs + 999) / 1000 := by
      rw [Nat.one_le_div_iff (by omega)]; omega
    have hlt : now < now + ((cfg.windowMs + 999) / 1000) * 1000 := by
      have : 1000 ≤ ((cfg.windowMs + 999) / 1000) * 1000 := by
        calc 1000 = 1 * 1000 := by omega
        _ ≤ ((cfg.windowMs + 999) / 1000) * 1000 := Nat.mul_le_mul_right 1000 hsec
      omega
    simp [redisCount, h, redisGet_redisSet_self, hlt]

/-! ## Claim theorems -/

/-- Claim C3: for every key, the rate limiter's `check` performs a single
atomic increment, sets the key's expiry to the window length exactly when
the increment brought the counter from absent to 1 (leaving an existing
expiry untouched otherwise), and returns `allowed = (count ≤ max)` with
`remaining = max - count` (clamped at 0); concretely, with max = 5 and a
60-second window, calls 1–5 on one key return allowed = true with counts
1,2,3,4,5, call 6 returns allowed = false with remaining = 0, and a call
after the window has elapsed resets the count to 1. -/
theorem rateLimiter_check_counts (cfg : RateLimiter) (key : String) (now : Nat)
    (s : RedisStore) (hok : s.failing = false) (hw : 0 < cfg.windowMs) :
    ((RateLimiter.check cfg key now s).fst.current = redisCount now s key + 1 ∧
     (RateLimiter.check cfg key now s).fst.success =
       decide ((RateLimiter.check cfg key now s).fst.current ≤ cfg.max) ∧
     (RateLimiter.check cfg key now s).fst.remaining =
       cfg.max - (RateLimiter.check cfg key now s).fst.current ∧
     (redisGet now s key = none →
       redisGet now (RateLimiter.check cfg key now s).snd key =
         some ⟨1, now + ((cfg.windowMs + 999) / 1000) * 1000⟩) ∧
     (∀ e : RedisEntry, redisGet now s key = some e →
       redisGet now (RateLimiter.check cfg key now s).snd key =
         some ⟨e.count + 1, e.expires_at⟩)) ∧
    ((checkTimes ⟨60000, 5⟩ "k" [0, 0, 0, 0, 0, 0] ⟨[], false⟩).fst =
       [⟨true, 1, 4⟩, ⟨true, 2, 3⟩, ⟨true, 3, 2⟩, ⟨true, 4, 1⟩, ⟨true, 5, 0⟩,
        ⟨false, 6, 0⟩] ∧
     (RateLimiter.check ⟨60000, 5⟩ "k" 60000
        (checkTimes ⟨60000, 5⟩ "k" [0, 0, 0, 0, 0, 0] ⟨[], false⟩).snd).fst =
       ⟨true, 1, 4⟩) := by
  refine ⟨⟨check_current_eq cfg key now s hok, ?_, ?_, ?_, ?_⟩, by decide, by decide⟩
  · unfold RateLimiter.check incrScript
    rw [hok]
    cases h : redisGet now s key <;> simp [h]
  · unfold RateLimiter.check incrScript
    rw [hok]
    cases h : redisGet now s key <;> simp [h]
  · intro hnone
    have hsec : 1 ≤ (cfg.windowMs + 999) / 1000 := by
      rw [Nat.one_le_div_iff (by omega)]; omega
    have hlt : now < now + ((cfg.windowMs + 999) / 1000) * 1000 := by
      have : 1000 ≤ ((cfg.windowMs + 999) / 1000) * 1000 := by
        calc 1000 = 1 * 1000 := by omega
        _ ≤ ((cfg.windowMs + 999) / 1000) * 1000 := Nat.mul_le_mul_right 1000 hsec
      omega
    unfold RateLimiter.check incrScript
    rw [hok]
    simp [hnone, redisGet_redisSet_self, hlt]
  · intro e he
    have hlt := redisGet_some_lt now s key e he
    unfold RateLimiter.check incrScript
    rw [hok]
    simp [he, redisGet_redisSet_self, hlt]

/-- Witness for C3 at a concrete configuration, key, instant and store. -/
theorem rateLimiter_check_counts_witness :
    ((RateLimiter.check ⟨60000, 5⟩ "k" 0 ⟨[], false⟩).fst.current =
       redisCount 0 ⟨[], false⟩ "k" + 1) ∧
    (checkTimes ⟨60000, 5⟩ "k" [0, 0, 0, 0, 0, 0] ⟨[], false⟩).fst =
      [⟨true, 1, 4⟩, ⟨true, 2, 3⟩, ⟨true, 3, 2⟩, ⟨true, 4, 1⟩, ⟨true, 5, 0⟩,
       ⟨false, 6, 0⟩] :=
  ⟨(rateLimiter_check_counts ⟨60000, 5⟩ "k" 0 ⟨[], false⟩ rfl (by decide)).1.1,
   (rateLimiter_check_counts ⟨60000, 5⟩ "k" 0 ⟨[], false⟩ rfl (by decide)).2.1⟩

/-- Claim C4: when the shared counter store fails during a rate-limit
check (the atomic increment call errors), `check` fails open: it returns
`{success: true, current: 0, remaining: max}` and leaves the store as it
was, rather than propagating the error or denying the request. -/
theorem rateLimiter_check_fails_open (cfg : RateLimiter) (key : String)
    (now : Nat) (s : RedisStore) (h : s.failing = true) :
    RateLimiter.check cfg key now s =
      ({ success := true, current := 0, remaining := cfg.max }, s) := by
  unfold RateLimiter.check
  rw [h]
  simp

/-- Witness for C4 at a concrete failing store. -/
theorem rateLimiter_check_fails_open_witness :
    RateLimiter.check ⟨60000, 5⟩ "k" 7 ⟨[("k", ⟨3, 100⟩)], true⟩ =
      ({ success := true, current := 0, remaining := 5 }, ⟨[("k", ⟨3, 100⟩)], true⟩) :=
  rateLimiter_check_fails_open ⟨60000, 5⟩ "k" 7 ⟨[("k", ⟨3, 100⟩)], true⟩ rfl

/-- Claim C1: `verifyAccessToken` validates only the token's signature
and expiry, succeeding on any access-signed unexpired token and failing
with the single invalid-token error otherwise; it takes no store argument
and never consults revocation records, so a correctly signed, unexpired
access token whose jti was blacklisted (by logout, or by the wildcard
rows a password reset inserts) still verifies successfully. -/
theorem verifyAccess_ignores_revocation (t : SignedToken) (now : Nat) (db : Db)
    (hkey : t.key = SigningKey.access) (hexp : now < t.exp) :
    verifyAccessToken now t = .ok ⟨t.user_id, t.jti⟩ ∧
    (∀ (t2 : SignedToken) (now2 : Nat),
       ¬ (t2.key = SigningKey.access ∧ now2 < t2.exp) →
       verifyAccessToken now2 t2 = .error "Invalid or expired access token") ∧
    isBlacklisted (logout t none now db).snd t.jti = true ∧
    (∀ db2 : Db, isBlacklisted db2 t.jti = true →
       verifyAccessToken now t = .ok ⟨t.user_id, t.jti⟩) := by
  have hok : verifyAccessToken now t = .ok ⟨t.user_id, t.jti⟩ := by
    unfold verifyAccessToken jwtVerify
    rw [if_pos ⟨hkey, hexp⟩]
  refine ⟨hok, ?_, ?_, fun _ _ => hok⟩
  · intro t2 now2 h
    unfold verifyAccessToken jwtVerify
    rw [if_neg h]
  · unfold logout
    rw [hok]
    simp [isBlacklisted]

/-- Witness for C1 at a concrete token and store. -/
theorem verifyAccess_ignores_revocation_witness :
    verifyAccessToken 0 (⟨1, "j1", SigningKey.access, 100⟩ : SignedToken) =
      .ok ⟨1, "j1"⟩ ∧
    isBlacklisted (logout ⟨1, "j1", SigningKey.access, 100⟩ none 0 emptyDb).snd "j1"
      = true :=
  ⟨(verifyAccess_ignores_revocation ⟨1, "j1", SigningKey.access, 100⟩ 0 emptyDb rfl
      (by decide)).1,
   (verifyAccess_ignores_revocation ⟨1, "j1", SigningKey.access, 100⟩ 0 emptyDb rfl
      (by decide)).2.2.1⟩

/-- Claim C2: token issuance hands back a pair only when the refresh-token
row was durably persisted — if the write fails the whole issuance fails
and login surfaces a 500 with the store untouched; and for an account
with 2FA disabled, a correct-credential login yields a pair whose access
token verifies immediately and whose refresh token has a matching
persisted `Refresh_Tokens` row. -/
theorem login_tokens_persisted (cmp totp : String → String → Bool)
    (req : LoginRequest) (jti : String) (now : Nat) (db : Db) (u : User)
    (hname : validateUsername req.username = true)
    (hfind : findUserByUsername db req.username = some u)
    (hpw : cmp req.password u.password_hash = true)
    (h2fa : twoFactorEnabled db u.id = false) :
    (db.refreshCreateFails = true →
       generateTokens u.id jti now db = (.error "Failed to store refresh token", db) ∧
       login cmp totp req jti now db = (.error ⟨500, .INTERNAL_SERVER_ERROR⟩, db)) ∧
    (db.refreshCreateFails = false →
       ∃ d : LoginData,
         login cmp totp req jti now db =
           (.ok d, { db with refresh_Tokens :=
              ⟨d.refresh_token, u.id, now + JWT_REFRESH_EXPIRES_MS⟩ ::
                db.refresh_Tokens }) ∧
         verifyAccessToken now d.access_token = .ok ⟨u.id, jti⟩) := by
  have hgate : login cmp totp req jti now db =
      (match generateTokens u.id jti now db with
       | (.error _, _) => (.error ⟨500, .INTERNAL_SERVER_ERROR⟩, db)
       | (.ok tokens, db1) =>
         (.ok ⟨tokens.accessToken, "bearer", tokens.refreshToken, 3600, false⟩, db1)) := by
    unfold login
    rw [hfind]
    rcases hft : findTwoFactor db u.id with _ | s
    · simp [hname, hpw, hft, twoFactorGate]
    · have hs : s.is_enabled = false := by
        simpa [twoFactorEnabled, hft] using h2fa
      simp [hname, hpw, hft, hs, twoFactorGate]
  constructor
  · intro hfail
    have hgen : generateTokens u.id jti now db =
        (.error "Failed to store refresh token", db) := by
      unfold generateTokens
      rw [hfail]
      simp
    exact ⟨hgen, by rw [hgate, hgen]⟩
  · intro hpersist
    have hgen : generateTokens u.id jti now db =
        (.ok ⟨jwtSign u.id jti .access now JWT_ACCESS_EXPIRES_MS,
              jwtSign u.id jti .refresh now JWT_REFRESH_EXPIRES_MS⟩,
         { db with refresh_Tokens :=
            ⟨jwtSign u.id jti .refresh now JWT_REFRESH_EXPIRES_MS, u.id,
             now + JWT_REFRESH_EXPIRES_MS⟩ :: db.refresh_Tokens }) := by
      unfold generateTokens
      rw [hpersist]
      simp
    refine ⟨⟨jwtSign u.id jti .access now JWT_ACCESS_EXPIRES_MS, "bearer",
            jwtSign u.id jti .refresh now JWT_REFRESH_EXPIRES_MS, 3600, false⟩,
          ?_, ?_⟩
    · rw [hgate, hgen]
    · have hlt : now < now + JWT_ACCESS_EXPIRES_MS := by
        unfold JWT_ACCESS_EXPIRES_MS; omega
      simp [verifyAccessToken, jwtVerify, jwtSign, hlt]

/-- Claim C6: a 6-digit TOTP code generated for a secret at 30-second step
T verifies true at steps T-1, T and T+1; outside that range it verifies
false whenever the codes of the steps then inspected differ from the
generated code (the no-collision situation of the 6-digit code space);
and malformed input (not a 6-character token) is rejected with `false`
rather than an exception. The HMAC-SHA1 truncation inside `otplib` is
the abstract `hotp` parameter. -/
theorem totp_window_verification (hotp : String → Nat → Nat) (secret : String)
    (T : Nat) :
    (∀ e : Nat, e / TOTP_STEP = T - 1 ∨ e / TOTP_STEP = T ∨ e / TOTP_STEP = T + 1 →
       verify2FAToken hotp secret (totpToken hotp secret T) e = true) ∧
    (∀ e : Nat, T + 1 < e / TOTP_STEP ∨ e / TOTP_STEP + 1 < T →
       (∀ c : Nat, e / TOTP_STEP - 1 ≤ c → c ≤ e / TOTP_STEP + 1 →
          totpToken hotp secret c ≠ totpToken hotp secret T) →
       verify2FAToken hotp secret (totpToken hotp secret T) e = false) ∧
    (∀ (tok : String) (e : Nat), tok.length ≠ 6 →
       verify2FAToken hotp secret tok e = false) := by
  refine ⟨?_, ?_, ?_⟩
  · intro e h
    unfold verify2FAToken
    rcases h with h | h | h <;> rw [h] <;> cases T <;> simp
  · intro e _ hdist
    have h1 := Ne.symm (hdist (e / TOTP_STEP - 1) (by unfold TOTP_STEP; omega)
      (by unfold TOTP_STEP; omega))
    have h2 := Ne.symm (hdist (e / TOTP_STEP) (by unfold TOTP_STEP; omega)
      (by unfold TOTP_STEP; omega))
    have h3 := Ne.symm (hdist (e / TOTP_STEP + 1) (by unfold TOTP_STEP; omega)
      (by unfold TOTP_STEP; omega))
    simp [verify2FAToken, h1, h2, h3]
  · intro tok e hlen
    have hne : ∀ c : Nat, tok ≠ totpToken hotp secret c := by
      intro c hc
      apply hlen
      rw [hc]
      exact code6_length (hotp secret c)
    simp [verify2FAToken, hne]

/-- Witness for C6 at a concrete truncation function, secret and step. -/
theorem totp_window_verification_witness :
    verify2FAToken hotpId "s" (totpToken hotpId "s" 10) 330 = true ∧
    verify2FAToken hotpId "s" (totpToken hotpId "s" 10) 390 = false ∧
    verify2FAToken hotpId "s" "12345" 77 = false := by
  refine ⟨(totp_window_verification hotpId "s" 10).1 330 (Or.inr (Or.inr (by decide))),
    (totp_window_verification hotpId "s" 10).2.1 390 (Or.inl (by decide)) ?_,
    (totp_window_verification hotpId "s" 10).2.2 "12345" 77 (by decide)⟩
  intro c h1 h2
  have hl : 12 ≤ c := by
    have : (390 : Nat) / TOTP_STEP = 13 := by decide
    omega
  have hr : c ≤ 14 := by
    have : (390 : Nat) / TOTP_STEP = 13 := by decide
    omega
  interval_cases c <;> decide

/-- Claim C7: the 2FA setup state machine — starting setup while 2FA is
enabled fails with TWO_FACTOR_ALREADY_ENABLED; activating without a prior
start fails with the invalid-state error; activating with a wrong TOTP
code fails with INVALID_2FA_CODE and leaves the enabled flag false;
activating with a correct code succeeds, sets `is_enabled := true` and
records the activation timestamp. -/
theorem twoFactor_setup_state_machine (sha : String → String)
    (totp : String → String → Bool) (uid : Nat) (secret code : String)
    (codes : List String) (now : Nat) (db : Db) :
    (twoFactorEnabled db uid = true →
       enable2FA sha uid secret codes db =
         (.error ⟨400, .TWO_FACTOR_ALREADY_ENABLED⟩, db)) ∧
    (findTwoFactor db uid = none →
       verify2FA totp uid code now db = (.error ⟨400, .INVALID_STATE⟩, db)) ∧
    (∀ s : TwoFactorSettings, findTwoFactor db uid = some s →
       s.is_enabled = false → totp s.secret code = false →
       verify2FA totp uid code now db = (.error ⟨400, .INVALID_2FA_CODE⟩, db) ∧
       twoFactorEnabled (verify2FA totp uid code now db).snd uid = false) ∧
    (∀ s : TwoFactorSettings, findTwoFactor db uid = some s →
       s.is_enabled = false → totp s.secret code = true →
       (verify2FA totp uid code now db).fst = .ok true ∧
       findTwoFactor (verify2FA totp uid code now db).snd uid =
         some ⟨s.secret, true, some now⟩) := by
  refine ⟨?_, ?_, ?_, ?_⟩
  · intro h
    unfold enable2FA
    simp [h]
  · intro h
    unfold verify2FA
    rw [h]
  · intro s hs hen hcode
    have hv : verify2FA totp uid code now db = (.error ⟨400, .INVALID_2FA_CODE⟩, db) := by
      unfold verify2FA
      rw [hs]
      simp [hen, hcode]
    refine ⟨hv, ?_⟩
    rw [hv]
    simp [twoFactorEnabled, hs, hen]
  · intro s hs hen hcode
    have hv : verify2FA totp uid code now db =
        (.ok true,
         { db with two_Factor_Settings := db.two_Factor_Settings.map (fun p =>
             if p.fst = uid then (p.fst, ⟨p.snd.secret, true, some now⟩) else p) }) := by
      unfold verify2FA
      rw [hs]
      simp [hen, hcode]
    refine ⟨by rw [hv], ?_⟩
    rw [hv]
    obtain ⟨p, hp, hps⟩ := Option.map_eq_some'.mp hs
    have hu := find?_map_update db.two_Factor_Settings uid
      (fun s0 => (⟨s0.secret, true, some now⟩ : TwoFactorSettings)) p hp
    unfold findTwoFactor
    rw [hu]
    simp [hps]

/-- Witness for C7 at a concrete store holding an inactive 2FA row. -/
theorem twoFactor_setup_state_machine_witness :
    (verify2FA (fun sec c => sec ++ c = "SC") 1 "C" 9
        ⟨[], [], [], [(1, ⟨"S", false, none⟩)], [], [], false⟩).fst = .ok true :=
  ((twoFactor_setup_state_machine (fun h0 => h0) (fun sec c => sec ++ c = "SC")
      1 "x" "C" [] 9 ⟨[], [], [], [(1, ⟨"S", false, none⟩)], [], [], false⟩).2.2.2
    ⟨"S", false, none⟩ (by decide) rfl (by decide)).1

/-- Witness for C2 at the demo user and store. -/
theorem login_tokens_persisted_witness :
    ∃ d : LoginData,
      login cmpEq totpNever demoReq "j1" 0 demoDb =
        (.ok d, { demoDb with refresh_Tokens :=
           ⟨d.refresh_token, demoUser.id, 0 + JWT_REFRESH_EXPIRES_MS⟩ ::
             demoDb.refresh_Tokens }) ∧
      verifyAccessToken 0 d.access_token = .ok ⟨demoUser.id, "j1"⟩ :=
  (login_tokens_persisted cmpEq totpNever demoReq "j1" 0 demoDb demoUser
    (by decide) (by decide) (by decide) (by decide)).2 rfl

/-- Claim C8: `resetPassword` with a token that matches no unexpired,
unused reset request fails with 401 INVALID_RESET_TOKEN and leaves all
state unchanged; any error leaves all state unchanged (the transaction
rolls back, no partial state remains); and with a valid token it performs
exactly the transaction's steps: update the account's password hash and
changed/updated timestamps, mark the reset request used, and bulk-insert
the two wildcard revocation rows for the account. -/
theorem resetPassword_atomic (hashPw : String → String)
    (token newPassword : String) (now : Nat) (db : Db)
    (hpw : validatePassword newPassword = true) :
    (findResetRequest db token now = none →
       resetPassword hashPw token newPassword now db =
         (.error ⟨401, .INVALID_RESET_TOKEN⟩, db)) ∧
    (∀ e : ApiErr, (resetPassword hashPw token newPassword now db).fst = .error e →
       (resetPassword hashPw token newPassword now db).snd = db) ∧
    (∀ r : PasswordReset, findResetRequest db token now = some r →
       db.users.any (fun u => u.id = r.user_id) = true →
       resetPassword hashPw token newPassword now db =
         (.ok (), { db with
            users := db.users.map (fun u => if u.id = r.user_id then
              { u with password_hash := hashPw newPassword,
                       password_changed_at := some now, updated_at := now } else u),
            password_Resets := db.password_Resets.map (fun x =>
              if x.id = r.id then { x with is_used := true } else x),
            blacklisted_Tokens :=
              db.blacklisted_Tokens ++ resetBlacklistRows r.user_id now })) := by
  refine ⟨?_, ?_, ?_⟩
  · intro hnone
    unfold resetPassword resetPasswordTx
    simp [hpw, hnone]
  · intro e he
    unfold resetPassword at he ⊢
    rcases htx : resetPasswordTx hashPw token newPassword now db with e2 | db2 <;>
      simp [hpw, htx] at he ⊢
  · intro r hr huser
    have hmem : r ∈ db.password_Resets := by
      unfold findResetRequest at hr
      exact List.mem_of_find?_eq_some hr
    have hany : db.password_Resets.any (fun x => x.id = r.id) = true := by
      rw [List.any_eq_true]
      exact ⟨r, hmem, by simp⟩
    unfold resetPassword resetPasswordTx usersUpdatePassword markResetUsed
    simp [hpw, hr, huser, hany]

/-- Witness for C8 at a concrete store holding a pending reset request. -/
theorem resetPassword_atomic_witness :
    (resetPassword (fun p => "h:" ++ p) "tok" "Secret12" 5 resetDb).fst = .ok () := by
  have h := (resetPassword_atomic (fun p => "h:" ++ p) "tok" "Secret12" 5 resetDb
    (by decide)).2.2 resetRow (by decide) (by decide)
  rw [h]

/-- Claim C9 counterexample: the fixed revocation-retention constant
`TOKEN_EXPIRY_MS` (24 hours) is NOT at least as large as the refresh
token's default 7-day lifetime `JWT_REFRESH_EXPIRES_MS`, contrary to the
claim's invariant. -/
theorem revocation_ttl_counterexample :
    ¬ (JWT_REFRESH_EXPIRES_MS ≤ TOKEN_EXPIRY_MS) := by decide

/-- Claim C9 (amended): every revocation record created by logout or
password reset expires at its creation time plus the fixed
revocation-retention constant `TOKEN_EXPIRY_MS` (24 hours), never at the
revoked token's own remaining lifetime — but that constant is strictly
smaller than the refresh token's default 7-day lifetime. -/
theorem revocation_ttl_amended (t : SignedToken) (rt : Option SignedToken)
    (hashPw : String → String) (tok newPassword : String) (now : Nat) (db : Db) :
    (∀ b ∈ (logout t rt now db).snd.blacklisted_Tokens,
        b ∈ db.blacklisted_Tokens ∨ b.expires_at = now + TOKEN_EXPIRY_MS) ∧
    (∀ b ∈ (resetPassword hashPw tok newPassword now db).snd.blacklisted_Tokens,
        b ∈ db.blacklisted_Tokens ∨ b.expires_at = now + TOKEN_EXPIRY_MS) ∧
    TOKEN_EXPIRY_MS = 24 * 60 * 60 * 1000 ∧
    TOKEN_EXPIRY_MS < JWT_REFRESH_EXPIRES_MS := by
  refine ⟨?_, ?_, rfl, by decide⟩
  · intro b hb
    have hshape : (logout t rt now db).snd.blacklisted_Tokens = db.blacklisted_Tokens ∨
        (∃ rows : List BlacklistedToken,
          (logout t rt now db).snd.blacklisted_Tokens = db.blacklisted_Tokens ++ rows ∧
          ∀ x ∈ rows, x.expires_at = now + TOKEN_EXPIRY_MS) := by
      rcases rt with _ | rtk
      · rcases hv : verifyAccessToken now t with m | p
        · exact Or.inl (by simp [logout, hv])
        · exact Or.inr ⟨[⟨p.user_id, p.jti, "access", now + TOKEN_EXPIRY_MS⟩],
            by simp [logout, hv], by simp⟩
      · rcases hv : verifyAccessToken now t with m | p
        · exact Or.inl (by simp [logout, hv])
        · rcases hr : verifyRefreshToken now rtk db with m2 | rp
          · exact Or.inr ⟨[⟨p.user_id, p.jti, "access", now + TOKEN_EXPIRY_MS⟩],
              by simp [logout, hv, hr], by simp⟩
          · exact Or.inr ⟨[⟨p.user_id, p.jti, "access", now + TOKEN_EXPIRY_MS⟩,
              ⟨p.user_id, rp.jti, "refresh", now + TOKEN_EXPIRY_MS⟩],
              by simp [logout, hv, hr], by simp⟩
    rcases hshape with hEq | ⟨rows, hEq, hRows⟩
    · rw [hEq] at hb
      exact Or.inl hb
    · rw [hEq] at hb
      rcases List.mem_append.mp hb with hb | hb
      · exact Or.inl hb
      · exact Or.inr (hRows b hb)
  · intro b hb
    unfold resetPassword at hb
    rcases htx : resetPasswordTx hashPw tok newPassword now db with e | db1
    · by_cases hvp : validatePassword newPassword <;> simp [hvp, htx] at hb <;>
        exact Or.inl hb
    · by_cases hvp : validatePassword newPassword
      · simp only [hvp, not_true_eq_false, if_false, htx] at hb
        unfold resetPasswordTx at htx
        rcases hfr : findResetRequest db tok now with _ | r <;> simp [hfr] at htx
        rcases hu : usersUpdatePassword db r.user_id (hashPw newPassword) now
          with m | dbA <;> simp [hu] at htx
        rcases hm : markResetUsed dbA r.id with m2 | dbB <;> simp [hm] at htx
        have hA := (usersUpdatePassword_parts db r.user_id
          (hashPw newPassword) now dbA hu).1
        have hB := markResetUsed_blacklist dbA r.id dbB hm
        rw [← htx] at hb
        simp only [List.mem_append] at hb
        rcases hb with hb | hb
        · rw [hB, hA] at hb
          exact Or.inl hb
        · simp [resetBlacklistRows] at hb
          rcases hb with hb | hb <;> exact Or.inr (by rw [hb])
      · simp [hvp] at hb
        exact Or.inl hb

/-- Claim C5 counterexample: at a concrete store and concrete login
requests (demo user, empty counter store), a request whose credentials
succeed still consumes one unit of the window's budget — the counter for
its key rises from 0 to 1 — and a failed-credential attempt raises the
counter by two (the pre-check plus the failure recording), refuting
"exactly the failed login attempts are counted against the ceiling". -/
theorem loginRoute_budget_counterexample :
    (loginRoutePOST cmpEq totpNever "1.1.1.1" demoReq "j1" 0 demoDb
        ⟨[], false⟩).fst =
      .success ⟨⟨1, "j1", SigningKey.access, 3600000⟩, "bearer",
        ⟨1, "j1", SigningKey.refresh, 604800000⟩, 3600, false⟩ ∧
    redisCount 0 (loginRoutePOST cmpEq totpNever "1.1.1.1" demoReq "j1" 0 demoDb
        ⟨[], false⟩).snd.snd (loginKey "1.1.1.1" "alice") = 1 ∧
    (loginRoutePOST cmpEq totpNever "1.1.1.1" demoBadReq "j1" 0 demoDb
        ⟨[], false⟩).fst = .handled ⟨401, .INVALID_CREDENTIALS⟩ ∧
    redisCount 0 (loginRoutePOST cmpEq totpNever "1.1.1.1" demoBadReq "j1" 0 demoDb
        ⟨[], false⟩).snd.snd (loginKey "1.1.1.1" "alice") = 2 := by decide

/-- Claim C5 (amended): the login endpoint consults its limiter once
before every parsed request, successful or not, so every request that
reaches the pre-check consumes one unit of the window's budget; a
request that fails with INVALID_CREDENTIALS consumes one additional unit
(two in total), while successful logins and other failures consume
exactly one. -/
theorem loginRoute_budget_amended (cmp totp : String → String → Bool)
    (ip : String) (req : LoginRequest) (jti : String) (now : Nat) (db : Db)
    (s : RedisStore) (hok : s.failing = false) :
    ((loginRoutePOST cmp totp ip req jti now db s).fst = RouteOutcome.rateLimited →
       redisCount now (loginRoutePOST cmp totp ip req jti now db s).snd.snd
           (loginKey ip req.username) =
         redisCount now s (loginKey ip req.username) + 1) ∧
    (∀ d : LoginData,
       (loginRoutePOST cmp totp ip req jti now db s).fst = .success d →
       redisCount now (loginRoutePOST cmp totp ip req jti now db s).snd.snd
           (loginKey ip req.username) =
         redisCount now s (loginKey ip req.username) + 1) ∧
    (∀ e : ApiErr,
       (loginRoutePOST cmp totp ip req jti now db s).fst = .handled e →
       e.code = .INVALID_CREDENTIALS →
       redisCount now (loginRoutePOST cmp totp ip req jti now db s).snd.snd
           (loginKey ip req.username) =
         redisCount now s (loginKey ip req.username) + 2) ∧
    (∀ e : ApiErr,
       (loginRoutePOST cmp totp ip req jti now db s).fst = .handled e →
       e.code ≠ .INVALID_CREDENTIALS →
       redisCount now (loginRoutePOST cmp totp ip req jti now db s).snd.snd
           (loginKey ip req.username) =
         redisCount now s (loginKey ip req.username) + 1) := by
  have hwin : 0 < loginLimiter.windowMs := by decide
  have h1 : redisCount now
      (RateLimiter.check loginLimiter (loginKey ip req.username) now s).snd
      (loginKey ip req.username) =
      redisCount now s (loginKey ip req.username) + 1 :=
    check_count_after _ _ _ _ hok hwin
  have hf1 : (RateLimiter.check loginLimiter (loginKey ip req.username) now
      s).snd.failing = false := by
    rw [check_preserves_failing]; exact hok
  have h2 : redisCount now (RateLimiter.check loginLimiter
        (loginKey ip req.username) now
        (RateLimiter.check loginLimiter (loginKey ip req.username) now s).snd).snd
      (loginKey ip req.username) =
      redisCount now s (loginKey ip req.username) + 2 := by
    rw [check_count_after _ _ _ _ hf1 hwin, h1]
  by_cases hs1 : (RateLimiter.check loginLimiter (loginKey ip req.username)
      now s).fst.success
  · rcases hlog : login cmp totp req jti now db with ⟨res, db1⟩
    rcases res with e | d
    · by_cases hc : e.code = ErrorCode.INVALID_CREDENTIALS
      · have hroute : loginRoutePOST cmp totp ip req jti now db s =
            (.handled e, db1, (RateLimiter.check loginLimiter
              (loginKey ip req.username) now
              (RateLimiter.check loginLimiter (loginKey ip req.username) now
                s).snd).snd) := by
          unfold loginRoutePOST
          simp [hs1, hlog, hc]
        rw [hroute]
        refine ⟨by intro h; simp at h, fun d hd => by simp at hd,
          fun e2 he2 _ => h2, fun e2 he2 hc2 => ?_⟩
        simp at he2
        rw [he2] at hc
        exact absurd hc hc2
      · have hroute : loginRoutePOST cmp totp ip req jti now db s =
            (.handled e, db1, (RateLimiter.check loginLimiter
              (loginKey ip req.username) now s).snd) := by
          unfold loginRoutePOST
          simp [hs1, hlog, hc]
        rw [hroute]
        refine ⟨by intro h; simp at h, fun d hd => by simp at hd,
          fun e2 he2 hc2 => ?_, fun e2 he2 _ => h1⟩
        simp at he2
        rw [he2] at hc
        exact absurd hc2 hc
    · have hroute : loginRoutePOST cmp totp ip req jti now db s =
          (.success d, db1, (RateLimiter.check loginLimiter
            (loginKey ip req.username) now s).snd) := by
        unfold loginRoutePOST
        simp [hs1, hlog]
      rw [hroute]
      exact ⟨by intro h; simp at h, fun d2 _ => h1,
        fun e2 he2 _ => by simp at he2, fun e2 he2 _ => by simp at he2⟩
  · have hroute : loginRoutePOST cmp totp ip req jti now db s =
        (.rateLimited, db, (RateLimiter.check loginLimiter
          (loginKey ip req.username) now s).snd) := by
      unfold loginRoutePOST
      simp [hs1]
    rw [hroute]
    exact ⟨fun _ => h1, fun d2 hd => by simp at hd,
      fun e2 he2 _ => by simp at he2, fun e2 he2 _ => by simp at he2⟩

/-- Witness for C5 (amended) at the demo requests and an empty store. -/
theorem loginRoute_budget_amended_witness :
    redisCount 0 (loginRoutePOST cmpEq totpNever "1.1.1.1" demoBadReq "j1" 0
        demoDb ⟨[], false⟩).snd.snd (loginKey "1.1.1.1" "alice") =
      redisCount 0 ⟨([] : List (String × RedisEntry)), false⟩
        (loginKey "1.1.1.1" "alice") + 2 :=
  (loginRoute_budget_amended cmpEq totpNever "1.1.1.1" demoBadReq "j1" 0 demoDb
    ⟨[], false⟩ rfl).2.2.1 ⟨401, .INVALID_CREDENTIALS⟩ (by decide) rfl

theorem login_fst_eq (cmp totp : String → String → Bool) (req : LoginRequest)
    (jti : String) (now : Nat) (db : Db) :
    (login cmp totp req jti now db).fst =
      loginFst cmp totp req jti now
        ((findUserByUsername db req.username).map (fun u => (u.id, u.password_hash)))
        (findTwoFactor db) db.refreshCreateFails := by
  unfold login loginFst generateTokens
  rcases hfu : findUserByUsername db req.username with _ | u <;>
    simp only [hfu, Option.map_some', Option.map_none']
  · split <;> rfl
  · repeat' split
    all_goals try rfl
    all_goals try simp_all
    all_goals (rename_i heq hrf; rw [← heq.1]; exact ⟨rfl, rfl⟩)

theorem twoFactorGate_error_codes (totp : String → String → Bool)
    (tfs? : Option TwoFactorSettings) (code? : Option String) (e : ApiErr)
    (h : twoFactorGate totp tfs? code? = .error e) :
    e.code = .TWO_FACTOR_REQUIRED ∨ e.code = .INTERNAL_SERVER_ERROR ∨
    e.code = .INVALID_2FA_CODE := by
  rcases tfs? with _ | tfs
  · exact absurd h (by simp [twoFactorGate])
  · by_cases hen : tfs.is_enabled = true
    · rcases code? with _ | code
      · have h0 : (if tfs.is_enabled = true then
            (.error ⟨401, .TWO_FACTOR_REQUIRED⟩ : Except ApiErr Unit)
            else .ok ()) = .error e := h
        rw [if_pos hen] at h0
        injection h0 with h1
        rw [← h1]; decide
      · have h0 : (if tfs.is_enabled = true then
            (if tfs.secret = "" then
              (.error ⟨500, .INTERNAL_SERVER_ERROR⟩ : Except ApiErr Unit)
             else if ¬ totp tfs.secret code then .error ⟨401, .INVALID_2FA_CODE⟩
             else .ok ())
            else .ok ()) = .error e := h
        rw [if_pos hen] at h0
        by_cases hsec : tfs.secret = ""
        · rw [if_pos hsec] at h0
          injection h0 with h1
          rw [← h1]; decide
        · rw [if_neg hsec] at h0
          by_cases hvt : totp tfs.secret code = true
          · rw [if_neg (by simp [hvt])] at h0
            exact absurd h0 (by simp)
          · rw [if_pos (by simp [hvt])] at h0
            injection h0 with h1
            rw [← h1]; decide
    · exact absurd h (by simp [twoFactorGate, hen])

theorem loginFst_error_codes (cmp totp : String → String → Bool)
    (req : LoginRequest) (jti : String) (now : Nat)
    (found : Option (Nat × String)) (ft : Nat → Option TwoFactorSettings)
    (persistFails : Bool) (e : ApiErr)
    (h : loginFst cmp totp req jti now found ft persistFails = .error e) :
    e.code = .INVALID_USERNAME ∨ e.code = .INVALID_CREDENTIALS ∨
    e.code = .TWO_FACTOR_REQUIRED ∨ e.code = .INVALID_2FA_CODE ∨
    e.code = .INTERNAL_SERVER_ERROR := by
  rcases found with _ | p
  · have h0 : (if ¬ validateUsername req.username then
        (.error ⟨400, .INVALID_USERNAME⟩ : Except ApiErr LoginData)
        else .error ⟨401, .INVALID_CREDENTIALS⟩) = .error e := h
    by_cases hv : validateUsername req.username = true
    · rw [if_neg (by simp [hv])] at h0
      injection h0 with h1
      rw [← h1]; decide
    · rw [if_pos (by simp [hv])] at h0
      injection h0 with h1
      rw [← h1]; decide
  · rcases p with ⟨uid, hash⟩
    have h0 : (if ¬ validateUsername req.username then
        (.error ⟨400, .INVALID_USERNAME⟩ : Except ApiErr LoginData)
        else if ¬ cmp req.password hash then .error ⟨401, .INVALID_CREDENTIALS⟩
        else match twoFactorGate totp (ft uid) req.two_factor_code with
          | .error e0 => .error e0
          | .ok () =>
            if persistFails then .error ⟨500, .INTERNAL_SERVER_ERROR⟩
            else .ok ⟨jwtSign uid jti .access now JWT_ACCESS_EXPIRES_MS, "bearer",
                      jwtSign uid jti .refresh now JWT_REFRESH_EXPIRES_MS, 3600,
                      false⟩) = .error e := h
    by_cases hv : validateUsername req.username = true
    case neg =>
      rw [if_pos (by simp [hv])] at h0
      injection h0 with h1
      rw [← h1]; decide
    case pos =>
      rw [if_neg (by simp [hv])] at h0
      by_cases hcp : cmp req.password hash = true
      case neg =>
        rw [if_pos (by simp [hcp])] at h0
        injection h0 with h1
        rw [← h1]; decide
      case pos =>
        rw [if_neg (by simp [hcp])] at h0
        rcases hg : twoFactorGate totp (ft uid) req.two_factor_code with e2 | u0
        · rw [hg] at h0
          injection h0 with h1
          have hc2 := twoFactorGate_error_codes totp (ft uid) req.two_factor_code
            e2 hg
          rw [← h1]
          rcases hc2 with h2 | h2 | h2 <;> rw [h2] <;> decide
        · cases u0
          rw [hg] at h0
          by_cases hpf : persistFails = true
          · rw [if_pos (by simp [hpf])] at h0
            injection h0 with h1
            rw [← h1]; decide
          · rw [if_neg (by simp [hpf])] at h0
            exact absurd h0 (by simp)

/-- Claim C10: login never consults the account's `is_active` or
`email_verified` flags — a correct-credential account with 2FA disabled
is issued tokens even when both flags are false; no error kind for a
deactivated or unverified account exists on the login path; and the
login outcome is unchanged when every user row's flags are overwritten. -/
theorem login_ignores_account_flags (cmp totp : String → String → Bool)
    (req : LoginRequest) (jti : String) (now : Nat) (db : Db) (a b : Bool) :
    (∀ u : User, validateUsername req.username = true →
       findUserByUsername db req.username = some u →
       cmp req.password u.password_hash = true →
       twoFactorEnabled db u.id = false →
       db.refreshCreateFails = false →
       u.is_active = false → u.email_verified = false →
       (login cmp totp req jti now db).fst =
         .ok ⟨jwtSign u.id jti .access now JWT_ACCESS_EXPIRES_MS, "bearer",
              jwtSign u.id jti .refresh now JWT_REFRESH_EXPIRES_MS, 3600, false⟩) ∧
    (∀ (e : ApiErr) (db2 : Db), login cmp totp req jti now db = (.error e, db2) →
       e.code = .INVALID_USERNAME ∨ e.code = .INVALID_CREDENTIALS ∨
       e.code = .TWO_FACTOR_REQUIRED ∨ e.code = .INVALID_2FA_CODE ∨
       e.code = .INTERNAL_SERVER_ERROR) ∧
    (login cmp totp req jti now (dbSetFlags a b db)).fst =
      (login cmp totp req jti now db).fst := by
  refine ⟨?_, ?_, ?_⟩
  · intro u hname hfind hpw h2fa hpersist _ _
    rw [login_fst_eq, hfind]
    unfold loginFst
    rcases hft : findTwoFactor db u.id with _ | st
    · simp [hname, hpw, hft, hpersist, twoFactorGate]
    · have hs : st.is_enabled = false := by
        simpa [twoFactorEnabled, hft] using h2fa
      simp [hname, hpw, hft, hs, hpersist, twoFactorGate]
  · intro e db2 h
    have hfst : (login cmp totp req jti now db).fst = .error e := by rw [h]
    rw [login_fst_eq] at hfst
    exact loginFst_error_codes cmp totp req jti now _ _ _ e hfst
  · rw [login_fst_eq, login_fst_eq]
    have h1 : findUserByUsername (dbSetFlags a b db) req.username =
        (findUserByUsername db req.username).map
          (fun u => { u with is_active := a, email_verified := b }) := by
      unfold findUserByUsername dbSetFlags
      exact List.find?_map _ _
    rw [h1, Option.map_map]
    rfl

/-- Witness for C10 at the demo user with both flags cleared. -/
theorem login_ignores_account_flags_witness :
    (login cmpEq totpNever demoReq "j1" 0
        (dbSetFlags false false demoDb)).fst =
      .ok ⟨jwtSign 1 "j1" .access 0 JWT_ACCESS_EXPIRES_MS, "bearer",
           jwtSign 1 "j1" .refresh 0 JWT_REFRESH_EXPIRES_MS, 3600, false⟩ := by
  have h := (login_ignores_account_flags cmpEq totpNever demoReq "j1" 0
    (dbSetFlags false false demoDb) false false).1
    ⟨1, "alice", "alice@example.com", "Secret12", false, false, none, 0⟩
    (by decide) (by decide) (by decide) (by decide) rfl rfl rfl
  exact h

/-- Witness for C9 (amended) at a concrete logout. -/
theorem revocation_ttl_amended_witness :
    ((⟨1, "j1", "access", 0 + TOKEN_EXPIRY_MS⟩ : BlacklistedToken) ∈
        emptyDb.blacklisted_Tokens) ∨
    (⟨1, "j1", "access", 0 + TOKEN_EXPIRY_MS⟩ : BlacklistedToken).expires_at =
      0 + TOKEN_EXPIRY_MS :=
  (revocation_ttl_amended ⟨1, "j1", SigningKey.access, 100⟩ none (fun p => p)
    "t" "p" 0 emptyDb).1 ⟨1, "j1", "access", 0 + TOKEN_EXPIRY_MS⟩ (by decide)

end AuthFlow
